import Mathlib

/-!
# Channel and interleaver factories and the polar EXIT launcher of aff3ct

A shallow embedding of

* `src/Factory/Module/Channel/Channel.cpp`
  (`Channel::parameters::get_headers`, `Channel::parameters::build`),
* `src/Launcher/EXIT/Polar/Launcher_EXIT_polar.cpp` (`store_args`),
* `src/Tools/Factory/Factory_interleaver.cpp` (`Factory_interleaver::build`),

followed by the properties established about them.

Conventions of the embedding.

* C++ `int` fields are `Int`; no arithmetic is performed on them by the embedded code.
* C++ `float` values are elements of a carrier `F` of class `CFloat`: the code only
  compares the noise with the literal `-1.f`, renders it with `std::to_string`, and
  forwards it, so the carrier provides exactly these.
* `new T(args)` of a class whose body is not part of the embedded files is the
  constructor term `T args`: constructors are taken not to throw.
* A `throw e` is `Except.error e`.
* A returned pointer that may be `nullptr` is an `Option`.
-/

namespace aff3ct

/-- Carrier of the C++ `float` values used by the embedded code. -/
class CFloat (F : Type) where
  /-- the literal `-1.f` -/
  neg_one : F
  /-- rendering by `std::to_string(float)` -/
  to_string : F → String
  /-- comparison `==` against `-1.f`; a NaN is an element different from `neg_one` -/
  dec_eq : DecidableEq F

instance (priority := low) instDecidableEqCFloat {F : Type} [CFloat F] : DecidableEq F :=
  CFloat.dec_eq

namespace tools

/-- The exceptions of `Tools/Exception/exception.hpp` thrown by the embedded code. -/
inductive exception
  | cannot_allocate
  deriving DecidableEq, Repr

/-- The classes derived from `tools::Gaussian_noise_generator<R>`, each built from a seed. -/
inductive Gaussian_noise_generator
  | Gaussian_noise_generator_std (seed : Int)
  | Gaussian_noise_generator_fast (seed : Int)
  | Gaussian_noise_generator_MKL (seed : Int)
  | Gaussian_noise_generator_GSL (seed : Int)
  deriving DecidableEq, Repr

/-- The value `tools::Sigma<R>((R)noise)`. -/
structure Sigma (F : Type) where
  noise : F
  deriving DecidableEq, Repr

/-- The value `tools::Erasure_probability<R>((R)noise)`. -/
structure Erasure_probability (F : Type) where
  noise : F
  deriving DecidableEq, Repr

end tools

namespace module

/-- The classes derived from `module::Channel<R>` that the factory constructs, each with the
arguments of the constructor call, in the order of the call. -/
inductive Channel (F : Type)
  | Channel_AWGN_LLR (N : Int) (noise_generator : tools.Gaussian_noise_generator)
      (add_users : Bool) (noise : tools.Sigma F) (n_frames : Int)
  | Channel_Rayleigh_LLR (N : Int) (complex : Bool)
      (noise_generator : tools.Gaussian_noise_generator)
      (add_users : Bool) (noise : tools.Sigma F) (n_frames : Int)
  | Channel_Rayleigh_LLR_user (N : Int) (complex : Bool) (gains_filename : String)
      (gain_occurrences : Int) (noise_generator : tools.Gaussian_noise_generator)
      (add_users : Bool) (noise : tools.Sigma F) (n_frames : Int)
  | Channel_user (N : Int) (filename : String) (add_users : Bool) (n_frames : Int)
  | Channel_NO (N : Int) (add_users : Bool) (n_frames : Int)
  | Channel_BEC (N : Int) (seed : Int) (noise : tools.Erasure_probability F) (n_frames : Int)
  deriving DecidableEq, Repr

end module

namespace factory
namespace Channel

open tools module

/-- The data members of `factory::Channel::parameters` read by the embedded functions;
`pfx` is the value of `get_prefix()`. -/
structure parameters (F : Type) where
  pfx : String
  N : Int
  n_frames : Int
  seed : Int
  gain_occur : Int
  type : String
  implem : String
  path : String
  block_fading : String
  add_users : Bool
  complex : Bool
  noise : F
  deriving Repr

/-- The allowed values of the `-type` argument (`get_description`, `tools::Including_set`). -/
def type_including_set : List String :=
  ["NO", "USER", "AWGN", "RAYLEIGH", "RAYLEIGH_USER", "BEC"]

/-- The allowed values of the `-implem` argument (`get_description`); `GSL` and `MKL` are
added by `tools::add_options` (at the front) when the backend is compiled in. -/
def implem_including_set (CHANNEL_MKL CHANNEL_GSL : Bool) : List String :=
  (if CHANNEL_MKL then ["MKL"] else []) ++ (if CHANNEL_GSL then ["GSL"] else [])
    ++ ["STD", "FAST"]

/-- The allocations and deallocations of noise generators performed by `build`, in order. -/
inductive heap_event
  | new_generator (n : Gaussian_noise_generator)
  | delete_generator (n : Gaussian_noise_generator)
  deriving DecidableEq, Repr

/-- What a call of `build` does: the heap events it performed, in order, and then how it
ended: `ok c` for `return c`, `error e` for `throw e`. -/
structure build_run (F : Type) where
  result : Except exception (module.Channel F)
  events : List heap_event

/-- The method `Channel::parameters::build<R>()`. `CHANNEL_MKL` and `CHANNEL_GSL` are the two
preprocessor switches. -/
def parameters.build {F : Type} (CHANNEL_MKL CHANNEL_GSL : Bool) (p : parameters F) :
    build_run F :=
  let n : Option Gaussian_noise_generator :=
    if p.implem = "STD" then some (.Gaussian_noise_generator_std p.seed)
    else if p.implem = "FAST" then some (.Gaussian_noise_generator_fast p.seed)
    else if CHANNEL_MKL = true ∧ p.implem = "MKL" then
      some (.Gaussian_noise_generator_MKL p.seed)
    else if CHANNEL_GSL = true ∧ p.implem = "GSL" then
      some (.Gaussian_noise_generator_GSL p.seed)
    else none
  match n with
  | none => ⟨.error .cannot_allocate, []⟩
  | some n =>
    if p.type = "AWGN" then
      ⟨.ok (.Channel_AWGN_LLR p.N n p.add_users ⟨p.noise⟩ p.n_frames), [.new_generator n]⟩
    else if p.type = "RAYLEIGH" then
      ⟨.ok (.Channel_Rayleigh_LLR p.N p.complex n p.add_users ⟨p.noise⟩ p.n_frames),
        [.new_generator n]⟩
    else if p.type = "RAYLEIGH_USER" then
      ⟨.ok (.Channel_Rayleigh_LLR_user p.N p.complex p.path p.gain_occur n p.add_users
          ⟨p.noise⟩ p.n_frames), [.new_generator n]⟩
    else
      let c : Option (module.Channel F) :=
        if p.type = "USER" then some (.Channel_user p.N p.path p.add_users p.n_frames)
        else if p.type = "NO" then some (.Channel_NO p.N p.add_users p.n_frames)
        else if p.type = "BEC" then some (.Channel_BEC p.N p.seed ⟨p.noise⟩ p.n_frames)
        else none
      match c with
      | some c => ⟨.ok c, [.new_generator n, .delete_generator n]⟩
      | none => ⟨.error .cannot_allocate, [.new_generator n, .delete_generator n]⟩

/-- The type `header_list`: a `std::vector` of (key, value) pairs. -/
abbrev header_list := List (String × String)

/-- The type `std::map<std::string, header_list>` read through `operator[]`: a key that was never
written holds the empty list. -/
abbrev headers_map := String → header_list

/-- The statement `headers[p].push_back(e)`. -/
def push_back (headers : headers_map) (p : String) (e : String × String) : headers_map :=
  fun k => if k = p then headers k ++ [e] else headers k

/-- The test `s.find(pat) != std::string::npos` on the characters of the two strings: `pat` occurs in
`s` at some position. -/
def find_ne_npos (s pat : List Char) : Bool :=
  (s.take pat.length == pat) ||
    match s with
    | [] => false
    | _ :: cs => find_ne_npos cs pat

/-- The method `Channel::parameters::get_headers(headers, full)`; the result is the map `headers` after
the call. `std::to_string` of an `int` is its decimal rendering. -/
def parameters.get_headers {F : Type} [CFloat F] (self : parameters F) (headers : headers_map)
    (full : Bool) : headers_map :=
  let p := self.pfx
  let headers := push_back headers p ("Type", self.type)
  let headers := push_back headers p ("Implementation", self.implem)
  let headers :=
    if full = true then push_back headers p ("Frame size (N)", toString self.N) else headers
  let headers :=
    if full = true then push_back headers p ("Inter frame level", toString self.n_frames)
    else headers
  let headers :=
    if self.noise ≠ CFloat.neg_one then
      push_back headers p ("Sigma value", CFloat.to_string self.noise)
    else headers
  let headers :=
    if self.type = "USER" ∨ self.type = "RAYLEIGH_USER" then
      push_back headers p ("Path", self.path)
    else headers
  let headers :=
    if self.type = "RAYLEIGH_USER" then
      push_back headers p ("Gain occurrences", toString self.gain_occur)
    else headers
  let headers :=
    if find_ne_npos self.type.toList "RAYLEIGH".toList = true then
      push_back headers p ("Block fading policy", self.block_fading)
    else headers
  let headers :=
    if (self.type ≠ "NO" ∧ self.type ≠ "USER") ∧ full = true then
      push_back headers p ("Seed", toString self.seed)
    else headers
  let headers := push_back headers p ("Complex", if self.complex = true then "on" else "off")
  let headers :=
    push_back headers p ("Add users", if self.add_users = true then "on" else "off")
  headers

/-- The generator that `build` allocates when `implem` is one of the supported identifiers:
the first branch of the `if` chain that can be taken. -/
def generator_of {F : Type} (p : parameters F) : Gaussian_noise_generator :=
  if p.implem = "STD" then .Gaussian_noise_generator_std p.seed
  else if p.implem = "FAST" then .Gaussian_noise_generator_fast p.seed
  else if p.implem = "MKL" then .Gaussian_noise_generator_MKL p.seed
  else .Gaussian_noise_generator_GSL p.seed

/-- The noise value a channel was constructed with (inside its `Sigma` or
`Erasure_probability` argument), for the classes that take one. -/
def noise_of {F : Type} : module.Channel F → Option F
  | .Channel_AWGN_LLR _ _ _ noise _ => some noise.noise
  | .Channel_Rayleigh_LLR _ _ _ _ noise _ => some noise.noise
  | .Channel_Rayleigh_LLR_user _ _ _ _ _ _ noise _ => some noise.noise
  | .Channel_BEC _ _ noise _ => some noise.noise
  | .Channel_user _ _ _ _ => none
  | .Channel_NO _ _ _ => none

/-- The `add_users` flag a channel was constructed with, for the classes that take one. -/
def add_users_of {F : Type} : module.Channel F → Option Bool
  | .Channel_AWGN_LLR _ _ add_users _ _ => some add_users
  | .Channel_Rayleigh_LLR _ _ _ add_users _ _ => some add_users
  | .Channel_Rayleigh_LLR_user _ _ _ _ _ add_users _ _ => some add_users
  | .Channel_user _ _ add_users _ => some add_users
  | .Channel_NO _ add_users _ => some add_users
  | .Channel_BEC _ _ _ _ => none

/-- The file name a channel was constructed with, for the classes that take one. -/
def path_of {F : Type} : module.Channel F → Option String
  | .Channel_Rayleigh_LLR_user _ _ gains_filename _ _ _ _ _ => some gains_filename
  | .Channel_user _ filename _ _ => some filename
  | .Channel_AWGN_LLR _ _ _ _ _ => none
  | .Channel_Rayleigh_LLR _ _ _ _ _ _ => none
  | .Channel_NO _ _ _ => none
  | .Channel_BEC _ _ _ _ => none

/-- The seed a noise generator was constructed with. -/
def seed_of_generator : Gaussian_noise_generator → Int
  | .Gaussian_noise_generator_std seed => seed
  | .Gaussian_noise_generator_fast seed => seed
  | .Gaussian_noise_generator_MKL seed => seed
  | .Gaussian_noise_generator_GSL seed => seed

/-- The seed a channel was constructed with: the seed of the noise generator handed to it,
or its own seed argument; none for the classes that take neither. -/
def seed_of {F : Type} : module.Channel F → Option Int
  | .Channel_AWGN_LLR _ noise_generator _ _ _ => some (seed_of_generator noise_generator)
  | .Channel_Rayleigh_LLR _ _ noise_generator _ _ _ => some (seed_of_generator noise_generator)
  | .Channel_Rayleigh_LLR_user _ _ _ _ noise_generator _ _ _ =>
      some (seed_of_generator noise_generator)
  | .Channel_BEC _ seed _ _ => some seed
  | .Channel_user _ _ _ _ => none
  | .Channel_NO _ _ _ => none

/-- The map `headers` with the list `l` appended under the key `p`. -/
def append_at (headers : headers_map) (p : String) (l : header_list) : headers_map :=
  fun k => if k = p then headers k ++ l else headers k

/-- The entries that `get_headers` appends, in order. -/
def added_headers {F : Type} [CFloat F] (p : parameters F) (full : Bool) : header_list :=
  [("Type", p.type), ("Implementation", p.implem)]
    ++ (if full = true then [("Frame size (N)", toString p.N)] else [])
    ++ (if full = true then [("Inter frame level", toString p.n_frames)] else [])
    ++ (if p.noise ≠ CFloat.neg_one then [("Sigma value", CFloat.to_string p.noise)] else [])
    ++ (if p.type = "USER" ∨ p.type = "RAYLEIGH_USER" then [("Path", p.path)] else [])
    ++ (if p.type = "RAYLEIGH_USER" then [("Gain occurrences", toString p.gain_occur)]
        else [])
    ++ (if find_ne_npos p.type.toList "RAYLEIGH".toList = true then
          [("Block fading policy", p.block_fading)] else [])
    ++ (if (p.type ≠ "NO" ∧ p.type ≠ "USER") ∧ full = true then
          [("Seed", toString p.seed)] else [])
    ++ [("Complex", if p.complex = true then "on" else "off"),
        ("Add users", if p.add_users = true then "on" else "off")]

/-- The function `Channel::build<R>(params)`. -/
def build {F : Type} (CHANNEL_MKL CHANNEL_GSL : Bool) (params : parameters F) : build_run F :=
  params.build CHANNEL_MKL CHANNEL_GSL

end Channel
end factory
end aff3ct

namespace aff3ct

/-- An instance of the `float` carrier for concrete evaluation: the floats of integral value,
the integer `x` standing for the float `x.0`. `std::to_string` renders a float as `%f` does,
with six digits after the point: `1.000000`, `-1.000000`. -/
instance instCFloatInt : CFloat Int where
  neg_one := -1
  to_string := fun x => toString x ++ ".000000"
  dec_eq := inferInstance

end aff3ct

namespace std

/-- The exceptions thrown by `std::stoi` and `std::stof`. -/
inductive exception
  | invalid_argument
  | out_of_range
  deriving DecidableEq, Repr

/-- The function `std::isspace` in the "C" locale: space, and the controls from tab to carriage return. -/
def isspace (c : Char) : Bool :=
  c.toNat = 32 || (9 ≤ c.toNat && c.toNat ≤ 13)

/-- The function `std::stoi(str)` in base 10: leading white space is skipped, an optional sign and the
longest run of decimal digits are read; `invalid_argument` when there is no digit,
`out_of_range` when the value is not an `int` (32 bits). What follows the digits is ignored. -/
def stoi (str : String) : Except exception Int :=
  let cs := str.toList.dropWhile isspace
  let sign_rest : Bool × List Char :=
    match cs with
    | '-' :: rest => (true, rest)
    | '+' :: rest => (false, rest)
    | _ => (false, cs)
  let digits := sign_rest.2.takeWhile Char.isDigit
  if digits = [] then .error .invalid_argument
  else
    let magnitude : Nat := digits.foldl (fun acc c => 10 * acc + (c.toNat - 48)) 0
    let value : Int := if sign_rest.1 = true then -(magnitude : Int) else (magnitude : Int)
    if value < -2147483648 ∨ 2147483647 < value then .error .out_of_range
    else .ok value

end std

namespace aff3ct
namespace launcher

/-! ### `Launcher/EXIT/Polar/Launcher_EXIT_polar.cpp` -/

/-- The class `Arguments_reader`: the arguments given on the command line, by tag. -/
structure Arguments_reader where
  m_args : String → Option String

/-- The method `ar.exist_arg(tag)`. -/
def Arguments_reader.exist_arg (ar : Arguments_reader) (tag : String) : Bool :=
  (ar.m_args tag).isSome

/-- The method `ar.get_arg(tag)`. -/
def Arguments_reader.get_arg (ar : Arguments_reader) (tag : String) : String :=
  (ar.m_args tag).getD ""

/-- The members of `params.simulation` written by the launcher. -/
structure simulation_parameters where
  awgn_codes_dir : String
  bin_pb_path : String
  awgn_codes_file : String
  deriving DecidableEq, Repr

/-- The members of `params.code` written by the launcher. -/
structure code_parameters (F : Type) where
  type : String
  sigma : F
  fb_gen_method : String
  deriving DecidableEq, Repr

/-- The members of `params.channel` written by the launcher. -/
structure channel_parameters where
  quant_n_bits : Int
  quant_point_pos : Int
  deriving DecidableEq, Repr

/-- The members of `params.decoder` written by the launcher. -/
structure decoder_parameters where
  algo : String
  implem : String
  max_iter : Int
  L : Int
  deriving DecidableEq, Repr

/-- The simulation parameters `params` (`Tools/params.h`). -/
structure parameters (F : Type) where
  simulation : simulation_parameters
  code : code_parameters F
  channel : channel_parameters
  decoder : decoder_parameters
  deriving DecidableEq, Repr

/-- The data members of a `Launcher_EXIT_polar<B,R,Q>` object used by `store_args`. -/
structure Launcher_EXIT_polar (F : Type) where
  ar : Arguments_reader
  params : parameters F

/-- The body of the constructor `Launcher_EXIT_polar(argc, argv, stream)`, run on the object
left by the constructor of the base class; `sigma_0_3` is the value `0.3`. -/
def Launcher_EXIT_polar.constructor {F : Type} (ENABLE_POLAR_BOUNDS : Bool) (sigma_0_3 : F)
    (self : Launcher_EXIT_polar F) : Launcher_EXIT_polar F :=
  { self with
    params :=
      { channel := { quant_n_bits := 6, quant_point_pos := 3 }
        code :=
          { type := "POLAR"
            sigma := sigma_0_3
            fb_gen_method := if ENABLE_POLAR_BOUNDS = true then "TV" else "GA" }
        decoder := { algo := "SCAN", implem := "NAIVE", max_iter := 1, L := 1 }
        simulation :=
          { awgn_codes_dir := "../awgn_polar_codes/TV"
            bin_pb_path := "../lib/polar_bounds/bin/polar_bounds"
            awgn_codes_file := "" } } }

/-- Line 68 of `store_args`: `if (ar.exist_arg("max-iter")) params.decoder.max_iter =
std::stoi(ar.get_arg("max-iter"));`. -/
def Launcher_EXIT_polar.store_max_iter {F : Type} (self : Launcher_EXIT_polar F) :
    Except std.exception (Launcher_EXIT_polar F) :=
  if self.ar.exist_arg "max-iter" = true then do
    let v ← std.stoi (self.ar.get_arg "max-iter")
    pure { self with params.decoder.max_iter := v }
  else pure self

/-- Line 70 of `store_args`, compiled under `ENABLE_POLAR_BOUNDS`. -/
def Launcher_EXIT_polar.store_awgn_codes_dir {F : Type} (ENABLE_POLAR_BOUNDS : Bool)
    (self : Launcher_EXIT_polar F) : Launcher_EXIT_polar F :=
  if ENABLE_POLAR_BOUNDS = true ∧ self.ar.exist_arg "awgn-codes-dir" = true then
    { self with params.simulation.awgn_codes_dir := self.ar.get_arg "awgn-codes-dir" }
  else self

/-- Line 71 of `store_args`, compiled under `ENABLE_POLAR_BOUNDS`. -/
def Launcher_EXIT_polar.store_bin_pb_path {F : Type} (ENABLE_POLAR_BOUNDS : Bool)
    (self : Launcher_EXIT_polar F) : Launcher_EXIT_polar F :=
  if ENABLE_POLAR_BOUNDS = true ∧ self.ar.exist_arg "bin-pb-path" = true then
    { self with params.simulation.bin_pb_path := self.ar.get_arg "bin-pb-path" }
  else self

/-- Line 73 of `store_args`. -/
def Launcher_EXIT_polar.store_awgn_codes_file {F : Type} (self : Launcher_EXIT_polar F) :
    Launcher_EXIT_polar F :=
  if self.ar.exist_arg "awgn-codes-file" = true then
    { self with params.simulation.awgn_codes_file := self.ar.get_arg "awgn-codes-file" }
  else self

/-- Line 74 of `store_args`: `if (ar.exist_arg("L")) params.decoder.L =
std::stoi(ar.get_arg("L"));`. -/
def Launcher_EXIT_polar.store_L {F : Type} (self : Launcher_EXIT_polar F) :
    Except std.exception (Launcher_EXIT_polar F) :=
  if self.ar.exist_arg "L" = true then do
    let v ← std.stoi (self.ar.get_arg "L")
    pure { self with params.decoder.L := v }
  else pure self

/-- Line 75 of `store_args`: `if (ar.exist_arg("code-sigma")) params.code.sigma =
std::stof(ar.get_arg("code-sigma"));`. -/
def Launcher_EXIT_polar.store_code_sigma {F : Type} (stof : String → Except std.exception F)
    (self : Launcher_EXIT_polar F) : Except std.exception (Launcher_EXIT_polar F) :=
  if self.ar.exist_arg "code-sigma" = true then do
    let v ← stof (self.ar.get_arg "code-sigma")
    pure { self with params.code.sigma := v }
  else pure self

/-- Line 77 of `store_args`, compiled under `ENABLE_POLAR_BOUNDS`. -/
def Launcher_EXIT_polar.store_fb_gen_method {F : Type} (ENABLE_POLAR_BOUNDS : Bool)
    (self : Launcher_EXIT_polar F) : Launcher_EXIT_polar F :=
  if ENABLE_POLAR_BOUNDS = true ∧ self.ar.exist_arg "fb-gen-method" = true then
    { self with params.code.fb_gen_method := self.ar.get_arg "fb-gen-method" }
  else self

/-- Line 81 of `store_args`: force 1 iteration max if not SCAN. -/
def Launcher_EXIT_polar.force_max_iter {F : Type} (self : Launcher_EXIT_polar F) :
    Launcher_EXIT_polar F :=
  if self.params.decoder.algo ≠ "SCAN" then { self with params.decoder.max_iter := 1 }
  else self

/-- The method `Launcher_EXIT_polar::store_args()`, statement by statement. `Launcher_EXIT_store_args`
is the method of the base class, called first (its body is not part of the embedded file),
and `stof` is `std::stof`; an exception of either, or of `std::stoi`, leaves `store_args`. -/
def Launcher_EXIT_polar.store_args {F : Type} (ENABLE_POLAR_BOUNDS : Bool)
    (Launcher_EXIT_store_args :
      Launcher_EXIT_polar F → Except std.exception (Launcher_EXIT_polar F))
    (stof : String → Except std.exception F) (self : Launcher_EXIT_polar F) :
    Except std.exception (Launcher_EXIT_polar F) := do
  let self ← Launcher_EXIT_store_args self
  let self ← self.store_max_iter
  let self := self.store_awgn_codes_dir ENABLE_POLAR_BOUNDS
  let self := self.store_bin_pb_path ENABLE_POLAR_BOUNDS
  let self := self.store_awgn_codes_file
  let self ← self.store_L
  let self ← self.store_code_sigma stof
  let self := self.store_fb_gen_method ENABLE_POLAR_BOUNDS
  let self := self.force_max_iter
  pure self

end launcher
end aff3ct

namespace aff3ct
namespace tools

/-! ### `Tools/Factory/Factory_interleaver.cpp` -/

/-- The classes derived from `module::Interleaver<T>` that the factory constructs, each with
the arguments of the constructor call, in the order of the call. -/
inductive Interleaver
  | Interleaver_LTE (size : Int) (n_frames : Int)
  | Interleaver_CCSDS (size : Int) (n_frames : Int)
  | Interleaver_random (size : Int) (seed : Int) (uniform : Bool) (n_frames : Int)
  | Interleaver_random_column (size : Int) (n_cols : Int) (seed : Int) (uniform : Bool)
      (n_frames : Int)
  | Interleaver_row_column (size : Int) (n_cols : Int) (n_frames : Int)
  | Interleaver_golden (size : Int) (seed : Int) (uniform : Bool) (n_frames : Int)
  | Interleaver_user (size : Int) (filename : String) (n_frames : Int)
  | Interleaver_NO (size : Int) (n_frames : Int)
  deriving DecidableEq, Repr

namespace Factory_interleaver

/-- The members of `params.interleaver` read by `Factory_interleaver::build`. -/
structure interleaver_parameters where
  type : String
  path : String
  n_cols : Int
  uniform : Bool
  deriving DecidableEq, Repr

/-- The member of `params.simulation` read by `Factory_interleaver::build`. -/
structure simulation_parameters where
  inter_frame_level : Int
  deriving DecidableEq, Repr

/-- The simulation parameters `params`, as far as `Factory_interleaver::build` reads them. -/
structure parameters where
  interleaver : interleaver_parameters
  simulation : simulation_parameters
  deriving DecidableEq, Repr

/-- The function `Factory_interleaver<T>::build(params, size, seed)`. The returned pointer is
`some` of the constructed interleaver, or `none` for `nullptr`; the body has no `throw`, so
the call always ends with `return`, which is `Except.ok`. -/
def build (params : parameters) (size : Int) (seed : Int) :
    Except exception (Option Interleaver) :=
  let interleaver : Option Interleaver := none
  -- build the interleaver
  let interleaver : Option Interleaver :=
    if params.interleaver.type = "LTE" then
      some (.Interleaver_LTE size params.simulation.inter_frame_level)
    else if params.interleaver.type = "CCSDS" then
      some (.Interleaver_CCSDS size params.simulation.inter_frame_level)
    else if params.interleaver.type = "RANDOM" then
      some (.Interleaver_random size seed params.interleaver.uniform
        params.simulation.inter_frame_level)
    else if params.interleaver.type = "RAND_COL" then
      some (.Interleaver_random_column size params.interleaver.n_cols seed
        params.interleaver.uniform params.simulation.inter_frame_level)
    else if params.interleaver.type = "ROW_COL" then
      some (.Interleaver_row_column size params.interleaver.n_cols
        params.simulation.inter_frame_level)
    else if params.interleaver.type = "GOLDEN" then
      some (.Interleaver_golden size seed params.interleaver.uniform
        params.simulation.inter_frame_level)
    else if params.interleaver.type = "USER" then
      some (.Interleaver_user size params.interleaver.path
        params.simulation.inter_frame_level)
    else if params.interleaver.type = "NO" then
      some (.Interleaver_NO size params.simulation.inter_frame_level)
    else interleaver
  .ok interleaver

end Factory_interleaver
end tools
end aff3ct

open aff3ct aff3ct.tools aff3ct.module aff3ct.factory.Channel
open aff3ct.launcher (Launcher_EXIT_polar Arguments_reader)

namespace Spec

/-- A parameter set over the integer carrier, given by its type, implementation, noise and
add-users flag; the other members are fixed. -/
def sample (type implem : String) (noise : Int) (add_users : Bool) : parameters Int :=
  { pfx := "chn", N := 8, n_frames := 2, seed := 7, gain_occur := 3, type := type,
    implem := implem, path := "trace.txt", block_fading := "NO", add_users := add_users,
    complex := false, noise := noise }

/-- A stand-in for `Launcher_EXIT::store_args`, for concrete evaluation: it stores the
"dec-algo" argument as the decoder algorithm and returns. -/
def sample_base_store_args (self : Launcher_EXIT_polar Int) :
    Except std.exception (Launcher_EXIT_polar Int) :=
  if self.ar.exist_arg "dec-algo" = true then
    .ok { self with params.decoder.algo := self.ar.get_arg "dec-algo" }
  else .ok self

/-- A launcher object as its constructor leaves it (algorithm "SCAN", one iteration), with
the given "dec-algo" and "max-iter" arguments on the command line. -/
def sample_launcher (dec_algo max_iter : Option String) : Launcher_EXIT_polar Int :=
  Launcher_EXIT_polar.constructor false 0
    { ar := ⟨fun tag =>
        if tag = "dec-algo" then dec_algo else if tag = "max-iter" then max_iter else none⟩
      params :=
        { simulation := ⟨"", "", ""⟩
          code := ⟨"", 0, ""⟩
          channel := ⟨0, 0⟩
          decoder := ⟨"", "", 0, 0⟩ } }

/-- A parameter set of the interleaver factory with the given type; 4 columns, uniform off,
inter frame level 2. -/
def sample_interleaver (type : String) : Factory_interleaver.parameters :=
  { interleaver := { type := type, path := "itl.txt", n_cols := 4, uniform := false }
    simulation := { inter_frame_level := 2 } }

end Spec

namespace Spec

/-! ## Shared facts on `build` -/

/-- With a supported identifier, the generator selection of `build` yields `generator_of`. -/
theorem build_of_supported_implem {F : Type} (mkl gsl : Bool) (p : parameters F)
    (himplem : p.implem ∈ implem_including_set mkl gsl) :
    p.build mkl gsl =
      if p.type = "AWGN" then
        ⟨.ok (.Channel_AWGN_LLR p.N (generator_of p) p.add_users ⟨p.noise⟩ p.n_frames),
          [.new_generator (generator_of p)]⟩
      else if p.type = "RAYLEIGH" then
        ⟨.ok (.Channel_Rayleigh_LLR p.N p.complex (generator_of p) p.add_users ⟨p.noise⟩
            p.n_frames), [.new_generator (generator_of p)]⟩
      else if p.type = "RAYLEIGH_USER" then
        ⟨.ok (.Channel_Rayleigh_LLR_user p.N p.complex p.path p.gain_occur (generator_of p)
            p.add_users ⟨p.noise⟩ p.n_frames), [.new_generator (generator_of p)]⟩
      else if p.type = "USER" then
        ⟨.ok (.Channel_user p.N p.path p.add_users p.n_frames),
          [.new_generator (generator_of p), .delete_generator (generator_of p)]⟩
      else if p.type = "NO" then
        ⟨.ok (.Channel_NO p.N p.add_users p.n_frames),
          [.new_generator (generator_of p), .delete_generator (generator_of p)]⟩
      else if p.type = "BEC" then
        ⟨.ok (.Channel_BEC p.N p.seed ⟨p.noise⟩ p.n_frames),
          [.new_generator (generator_of p), .delete_generator (generator_of p)]⟩
      else
        ⟨.error .cannot_allocate,
          [.new_generator (generator_of p), .delete_generator (generator_of p)]⟩ := by
  have hn : (if p.implem = "STD" then
        some (Gaussian_noise_generator.Gaussian_noise_generator_std p.seed)
      else if p.implem = "FAST" then some (.Gaussian_noise_generator_fast p.seed)
      else if mkl = true ∧ p.implem = "MKL" then some (.Gaussian_noise_generator_MKL p.seed)
      else if gsl = true ∧ p.implem = "GSL" then some (.Gaussian_noise_generator_GSL p.seed)
      else none) = some (generator_of p) := by
    unfold generator_of
    by_cases h1 : p.implem = "STD"
    · simp [h1]
    by_cases h2 : p.implem = "FAST"
    · simp [h2]
    by_cases h3 : p.implem = "MKL"
    · cases mkl <;> cases gsl <;> simp_all [implem_including_set]
    by_cases h4 : p.implem = "GSL"
    · cases mkl <;> cases gsl <;> simp_all [implem_including_set]
    cases mkl <;> cases gsl <;> simp_all [implem_including_set]
  simp only [parameters.build, hn]
  by_cases h1 : p.type = "AWGN"
  · simp [h1]
  by_cases h2 : p.type = "RAYLEIGH"
  · simp [h2]
  by_cases h3 : p.type = "RAYLEIGH_USER"
  · simp [h3]
  by_cases h4 : p.type = "USER"
  · simp [h4]
  by_cases h5 : p.type = "NO"
  · simp [h5]
  by_cases h6 : p.type = "BEC"
  · simp [h6]
  simp [h1, h2, h3, h4, h5, h6]


/-! ## C1: an unknown generator identifier -/

/-- C1: in a build without the MKL and GSL backends, a parameter set whose `implem` is neither
"STD" nor "FAST" makes `Channel::parameters::build` throw `cannot_allocate`, whatever the
type is; nothing has been allocated and no channel is returned. -/
theorem C1_build_unknown_implem {F : Type} (p : parameters F)
    (hstd : p.implem ≠ "STD") (hfast : p.implem ≠ "FAST") :
    (p.build false false).result = Except.error exception.cannot_allocate ∧
      (p.build false false).events = [] ∧
      ∀ c, (p.build false false).result ≠ Except.ok c := by
  have h : p.build false false = ⟨Except.error exception.cannot_allocate, []⟩ := by
    simp [parameters.build, hstd, hfast]
  rw [h]
  refine ⟨rfl, rfl, ?_⟩
  intro c hc
  cases hc

/-- C1 at the type "NO" with the identifier "MKL". -/
theorem C1_build_unknown_implem_witness :
    (sample "NO" "MKL" 1 false).implem ≠ "STD" ∧ (sample "NO" "MKL" 1 false).implem ≠ "FAST" ∧
      ((sample "NO" "MKL" 1 false).build false false).result
        = Except.error exception.cannot_allocate :=
  ⟨by decide, by decide,
    (C1_build_unknown_implem (sample "NO" "MKL" 1 false) (by decide) (by decide)).1⟩

/-! ## C2: an unsupported type under a supported generator -/

/-- C2: with `implem` "STD" or "FAST", `Channel::parameters::build` throws `cannot_allocate`
exactly when the type is none of NO, USER, AWGN, RAYLEIGH, RAYLEIGH_USER, BEC (otherwise it
returns a channel); when it throws, the heap events before the throw are the allocation of
the noise generator followed by its deletion. -/
theorem C2_build_unsupported_type {F : Type} (mkl gsl : Bool) (p : parameters F)
    (himplem : p.implem = "STD" ∨ p.implem = "FAST") :
    ((p.build mkl gsl).result = Except.error exception.cannot_allocate
        ↔ p.type ∉ type_including_set) ∧
      (p.type ∈ type_including_set → ∃ c, (p.build mkl gsl).result = Except.ok c) ∧
      (∀ e, (p.build mkl gsl).result = Except.error e →
        (p.build mkl gsl).events
          = [heap_event.new_generator (generator_of p),
             heap_event.delete_generator (generator_of p)]) := by
  have hn : (if p.implem = "STD" then some (Gaussian_noise_generator.Gaussian_noise_generator_std p.seed)
      else if p.implem = "FAST" then some (.Gaussian_noise_generator_fast p.seed)
      else if mkl = true ∧ p.implem = "MKL" then some (.Gaussian_noise_generator_MKL p.seed)
      else if gsl = true ∧ p.implem = "GSL" then some (.Gaussian_noise_generator_GSL p.seed)
      else none) = some (generator_of p) := by
    unfold generator_of
    rcases himplem with h | h <;> simp [h]
  simp only [parameters.build, hn, type_including_set]
  by_cases h1 : p.type = "AWGN"
  · simp [h1]
  by_cases h2 : p.type = "RAYLEIGH"
  · simp [h2]
  by_cases h3 : p.type = "RAYLEIGH_USER"
  · simp [h3]
  by_cases h4 : p.type = "USER"
  · simp [h4]
  by_cases h5 : p.type = "NO"
  · simp [h5]
  by_cases h6 : p.type = "BEC"
  · simp [h6]
  simp [h1, h2, h3, h4, h5, h6]

/-- C2 at the unsupported type "NONE" and at the supported type "BEC", both with "STD". -/
theorem C2_build_unsupported_type_witness :
    ((sample "NONE" "STD" 1 false).build false false).result
        = Except.error exception.cannot_allocate ∧
      ((sample "NONE" "STD" 1 false).build false false).events
        = [heap_event.new_generator (.Gaussian_noise_generator_std 7),
           heap_event.delete_generator (.Gaussian_noise_generator_std 7)] ∧
      ∃ c, ((sample "BEC" "STD" 1 false).build false false).result = Except.ok c :=
  ⟨(C2_build_unsupported_type false false (sample "NONE" "STD" 1 false)
      (Or.inl rfl)).1.2 (by decide),
    (C2_build_unsupported_type false false (sample "NONE" "STD" 1 false)
      (Or.inl rfl)).2.2 exception.cannot_allocate rfl,
    (C2_build_unsupported_type false false (sample "BEC" "STD" 1 false)
      (Or.inl rfl)).2.1 (by decide)⟩

/-! ## C3: an unset noise level -/

/-- C3, refuted as stated: the type AWGN requires a noise level and the noise is the sentinel
`-1`, yet `build` returns an AWGN channel (whose sigma is `-1`) instead of failing. -/
theorem C3_unset_noise_counterexample :
    (sample "AWGN" "STD" (-1) false).noise = CFloat.neg_one ∧
      ((sample "AWGN" "STD" (-1) false).build false false).result
        = Except.ok (module.Channel.Channel_AWGN_LLR 8
            (.Gaussian_noise_generator_std 7) false ⟨-1⟩ 2) := by
  constructor <;> rfl

/-- C3, amended: `build` does not inspect the noise. With a supported `implem`, a type that
requires a noise level and the noise unset (the sentinel `-1`), it returns the channel of
that type, constructed with the sentinel as its sigma or erasure probability:
`Channel_AWGN_LLR` for AWGN, `Channel_Rayleigh_LLR` for RAYLEIGH, `Channel_Rayleigh_LLR_user`
for RAYLEIGH_USER, each with `Sigma(-1)`, and `Channel_BEC` with `Erasure_probability(-1)`
for BEC. -/
theorem C3_build_forwards_unset_noise {F : Type} [CFloat F] (mkl gsl : Bool)
    (p : parameters F) (himplem : p.implem ∈ implem_including_set mkl gsl)
    (htype : p.type ∈ ["AWGN", "RAYLEIGH", "RAYLEIGH_USER", "BEC"])
    (hnoise : p.noise = CFloat.neg_one) :
    (p.type = "AWGN" →
      (p.build mkl gsl).result
        = Except.ok (.Channel_AWGN_LLR p.N (generator_of p) p.add_users
            (tools.Sigma.mk CFloat.neg_one) p.n_frames)) ∧
    (p.type = "RAYLEIGH" →
      (p.build mkl gsl).result
        = Except.ok (.Channel_Rayleigh_LLR p.N p.complex (generator_of p) p.add_users
            (tools.Sigma.mk CFloat.neg_one) p.n_frames)) ∧
    (p.type = "RAYLEIGH_USER" →
      (p.build mkl gsl).result
        = Except.ok (.Channel_Rayleigh_LLR_user p.N p.complex p.path p.gain_occur
            (generator_of p) p.add_users (tools.Sigma.mk CFloat.neg_one) p.n_frames)) ∧
    (p.type = "BEC" →
      (p.build mkl gsl).result
        = Except.ok (.Channel_BEC p.N p.seed (tools.Erasure_probability.mk CFloat.neg_one)
            p.n_frames)) ∧
    ∃ c, (p.build mkl gsl).result = Except.ok c ∧ noise_of c = some CFloat.neg_one := by
  rw [build_of_supported_implem mkl gsl p himplem]
  simp only [List.mem_cons, List.mem_singleton, List.not_mem_nil, or_false] at htype
  refine ⟨?_, ?_, ?_, ?_, ?_⟩
  · intro h
    simp [h, hnoise]
  · intro h
    simp [h, hnoise]
  · intro h
    simp [h, hnoise]
  · intro h
    simp [h, hnoise]
  · rcases htype with h | h | h | h <;> simp [h, noise_of, hnoise]

/-- C3 amended, at the types BEC and RAYLEIGH with the noise unset: the erasure channel with
erasure probability `-1`, the Rayleigh channel with sigma `-1`. -/
theorem C3_build_forwards_unset_noise_witness :
    (sample "BEC" "FAST" (-1) false).implem ∈ implem_including_set false false ∧
      (sample "BEC" "FAST" (-1) false).noise = CFloat.neg_one ∧
      ((sample "BEC" "FAST" (-1) false).build false false).result
        = Except.ok (.Channel_BEC 8 7 ⟨-1⟩ 2) ∧
      ((sample "RAYLEIGH" "FAST" (-1) false).build false false).result
        = Except.ok (.Channel_Rayleigh_LLR 8 false (.Gaussian_noise_generator_fast 7) false
            ⟨-1⟩ 2) ∧
      ∃ c, ((sample "BEC" "FAST" (-1) false).build false false).result = Except.ok c ∧
        noise_of c = some (-1) :=
  ⟨by decide, rfl,
    (C3_build_forwards_unset_noise false false (sample "BEC" "FAST" (-1) false)
      (by decide) (by decide) (by rfl)).2.2.2.1 rfl,
    (C3_build_forwards_unset_noise false false (sample "RAYLEIGH" "FAST" (-1) false)
      (by decide) (by decide) (by rfl)).2.1 rfl,
    (C3_build_forwards_unset_noise false false (sample "BEC" "FAST" (-1) false)
      (by decide) (by decide) (by rfl)).2.2.2.2⟩

/-! ## C4: the channel built for each type tag -/

/-- C4, refuted as stated: the tag "NONE" of the specification is not a type of the factory;
with the supported identifier "STD", `build` throws `cannot_allocate` for it. -/
theorem C4_type_NONE_counterexample :
    ((sample "NONE" "STD" 1 false).build false false).result
      = Except.error exception.cannot_allocate := by
  rfl

/-- C4, amended: the tag of the identity channel is "NO". For each of the six tags NO, USER,
AWGN, RAYLEIGH, RAYLEIGH_USER, BEC and every supported `implem`, `build` returns the channel
of that type, constructed with `N` and `n_frames`: `Channel_NO`; `Channel_user` with the
path; `Channel_AWGN_LLR` and `Channel_Rayleigh_LLR` with the generator and the noise as a
sigma; `Channel_Rayleigh_LLR_user` with the path and `gain_occur`; `Channel_BEC` with the
noise as an erasure probability. -/
theorem C4_build_channel_of_type {F : Type} (mkl gsl : Bool) (p : parameters F)
    (himplem : p.implem ∈ implem_including_set mkl gsl) :
    (p.type = "NO" →
      (p.build mkl gsl).result = Except.ok (.Channel_NO p.N p.add_users p.n_frames)) ∧
    (p.type = "USER" →
      (p.build mkl gsl).result
        = Except.ok (.Channel_user p.N p.path p.add_users p.n_frames)) ∧
    (p.type = "AWGN" →
      (p.build mkl gsl).result
        = Except.ok (.Channel_AWGN_LLR p.N (generator_of p) p.add_users
            (tools.Sigma.mk p.noise) p.n_frames)) ∧
    (p.type = "RAYLEIGH" →
      (p.build mkl gsl).result
        = Except.ok (.Channel_Rayleigh_LLR p.N p.complex (generator_of p) p.add_users
            (tools.Sigma.mk p.noise) p.n_frames)) ∧
    (p.type = "RAYLEIGH_USER" →
      (p.build mkl gsl).result
        = Except.ok (.Channel_Rayleigh_LLR_user p.N p.complex p.path p.gain_occur
            (generator_of p) p.add_users (tools.Sigma.mk p.noise) p.n_frames)) ∧
    (p.type = "BEC" →
      (p.build mkl gsl).result
        = Except.ok (.Channel_BEC p.N p.seed (tools.Erasure_probability.mk p.noise)
            p.n_frames)) := by
  rw [build_of_supported_implem mkl gsl p himplem]
  refine ⟨?_, ?_, ?_, ?_, ?_, ?_⟩ <;> intro h <;> simp [h]

/-- C4 amended, at the type "NO" with "STD": the identity channel for frames of 8 symbols
and 2 frames. -/
theorem C4_build_channel_of_type_witness :
    (sample "NO" "STD" 1 false).implem ∈ implem_including_set false false ∧
      ((sample "NO" "STD" 1 false).build false false).result
        = Except.ok (.Channel_NO 8 false 2) :=
  ⟨by decide,
    (C4_build_channel_of_type false false (sample "NO" "STD" 1 false) (by decide)).1 rfl⟩

/-! ## C5: the add-users flag -/

/-- C5, refuted as stated: two BEC parameter sets that differ only in `add_users` build the
same channel. -/
theorem C5_add_users_BEC_counterexample :
    (sample "BEC" "STD" 1 true).add_users ≠ (sample "BEC" "STD" 1 false).add_users ∧
      ((sample "BEC" "STD" 1 true).build false false).result
        = Except.ok (.Channel_BEC 8 7 ⟨1⟩ 2) ∧
      ((sample "BEC" "STD" 1 false).build false false).result
        = Except.ok (.Channel_BEC 8 7 ⟨1⟩ 2) := by
  refine ⟨by decide, rfl, rfl⟩

/-- C5, amended: for the types NO, USER, AWGN, RAYLEIGH and RAYLEIGH_USER and a supported
`implem`, the channel returned by `build` is constructed with the configured `add_users`
flag, so flipping only that flag changes what is built; for BEC the flag is not an argument
of the channel and flipping it changes nothing. -/
theorem C5_build_add_users {F : Type} (mkl gsl : Bool) (p : parameters F)
    (himplem : p.implem ∈ implem_including_set mkl gsl) :
    (p.type ∈ ["NO", "USER", "AWGN", "RAYLEIGH", "RAYLEIGH_USER"] →
      (∃ c, (p.build mkl gsl).result = Except.ok c ∧ add_users_of c = some p.add_users) ∧
      ({ p with add_users := !p.add_users }.build mkl gsl).result
        ≠ (p.build mkl gsl).result) ∧
    (p.type = "BEC" →
      (∃ c, (p.build mkl gsl).result = Except.ok c ∧ add_users_of c = none) ∧
      ({ p with add_users := !p.add_users }.build mkl gsl).result
        = (p.build mkl gsl).result) := by
  have hq : ({ p with add_users := !p.add_users } : parameters F).implem
      ∈ implem_including_set mkl gsl := himplem
  rw [build_of_supported_implem mkl gsl p himplem,
    build_of_supported_implem mkl gsl _ hq]
  constructor
  · intro htype
    simp only [List.mem_cons, List.mem_singleton, List.not_mem_nil, or_false] at htype
    rcases htype with h | h | h | h | h <;> simp [h, add_users_of, generator_of]
  · intro h
    simp [h, add_users_of]

/-- C5 amended, at the type AWGN with "STD". -/
theorem C5_build_add_users_witness :
    (sample "AWGN" "STD" 1 true).implem ∈ implem_including_set false false ∧
      ((sample "AWGN" "STD" 1 false).build false false).result
        ≠ ((sample "AWGN" "STD" 1 true).build false false).result :=
  ⟨by decide,
    ((C5_build_add_users false false (sample "AWGN" "STD" 1 true) (by decide)).1
      (by decide)).2⟩

/-! ## C6: the block-fading policy of a RAYLEIGH channel -/

/-- C6, the code at the failing input: two RAYLEIGH parameter sets that differ only in the
block-fading policy ("NO" against "FRAME") are reported with different policies by
`get_headers`, and `build` returns the same channel for both. -/
theorem C6_block_fading_not_forwarded :
    ({ sample "RAYLEIGH" "STD" 1 false with block_fading := "FRAME" }.build false false).result
        = Except.ok (.Channel_Rayleigh_LLR 8 false (.Gaussian_noise_generator_std 7) false
            ⟨1⟩ 2) ∧
      ((sample "RAYLEIGH" "STD" 1 false).build false false).result
        = Except.ok (.Channel_Rayleigh_LLR 8 false (.Gaussian_noise_generator_std 7) false
            ⟨1⟩ 2) ∧
      ("Block fading policy", "FRAME") ∈
        { sample "RAYLEIGH" "STD" 1 false with block_fading := "FRAME" }.get_headers
          (fun _ => []) false "chn" ∧
      ("Block fading policy", "NO") ∈
        (sample "RAYLEIGH" "STD" 1 false).get_headers (fun _ => []) false "chn" := by
  refine ⟨rfl, rfl, by decide, by decide⟩

/-! ## The summary written by `get_headers` -/

theorem push_back_eq_append_at (headers : headers_map) (p : String) (e : String × String) :
    push_back headers p e = append_at headers p [e] := rfl

theorem append_at_append_at (headers : headers_map) (p : String) (l₁ l₂ : header_list) :
    append_at (append_at headers p l₁) p l₂ = append_at headers p (l₁ ++ l₂) := by
  funext k
  by_cases hk : k = p <;> simp [append_at, hk]

theorem append_at_nil (headers : headers_map) (p : String) :
    append_at headers p [] = headers := by
  funext k
  simp [append_at]

theorem ite_append_at (c : Prop) [Decidable c] (headers : headers_map) (p : String)
    (l : header_list) :
    (if c then append_at headers p l else headers)
      = append_at headers p (if c then l else []) := by
  by_cases hc : c <;> simp [hc, append_at_nil]

/-- The call of `get_headers` appends `added_headers` under the key of the parameter set and leaves the
other keys of the map as they were. -/
theorem get_headers_eq_append_at {F : Type} [CFloat F] (p : parameters F)
    (headers : headers_map) (full : Bool) :
    p.get_headers headers full = append_at headers p.pfx (added_headers p full) := by
  simp only [parameters.get_headers, push_back_eq_append_at, ite_append_at]
  simp only [append_at_append_at, added_headers, List.append_assoc, List.cons_append,
    List.nil_append]

/-- The summary of a parameter set: what `get_headers` writes under its key into an empty
map. -/
theorem get_headers_empty {F : Type} [CFloat F] (p : parameters F) (full : Bool) :
    p.get_headers (fun _ => []) full p.pfx = added_headers p full := by
  rw [get_headers_eq_append_at]
  simp [append_at]

/-- The entries of `added_headers` under a key, by the entries of its parts. -/
theorem filter_added_headers {F : Type} [CFloat F] (p : parameters F) (full : Bool)
    (key : String) :
    (added_headers p full).filter (fun e => decide (e.1 = key)) =
      (if "Type" = key then [("Type", p.type)] else [])
      ++ (if "Implementation" = key then [("Implementation", p.implem)] else [])
      ++ (if full = true ∧ "Frame size (N)" = key then
            [("Frame size (N)", toString p.N)] else [])
      ++ (if full = true ∧ "Inter frame level" = key then
            [("Inter frame level", toString p.n_frames)] else [])
      ++ (if p.noise ≠ CFloat.neg_one ∧ "Sigma value" = key then
            [("Sigma value", CFloat.to_string p.noise)] else [])
      ++ (if (p.type = "USER" ∨ p.type = "RAYLEIGH_USER") ∧ "Path" = key then
            [("Path", p.path)] else [])
      ++ (if p.type = "RAYLEIGH_USER" ∧ "Gain occurrences" = key then
            [("Gain occurrences", toString p.gain_occur)] else [])
      ++ (if find_ne_npos p.type.toList "RAYLEIGH".toList = true
              ∧ "Block fading policy" = key then
            [("Block fading policy", p.block_fading)] else [])
      ++ (if ((p.type ≠ "NO" ∧ p.type ≠ "USER") ∧ full = true) ∧ "Seed" = key then
            [("Seed", toString p.seed)] else [])
      ++ (if "Complex" = key then [("Complex", if p.complex = true then "on" else "off")]
          else [])
      ++ (if "Add users" = key then
            [("Add users", if p.add_users = true then "on" else "off")] else []) := by
  have hif : ∀ (c : Prop) [Decidable c] (e : String × String),
      (if c then [e] else []).filter (fun e => decide (e.1 = key))
        = if c ∧ e.1 = key then [e] else [] := by
    intro c _ e
    by_cases hc : c <;> by_cases he : e.1 = key <;> simp [hc, he]
  have htwo : ∀ (e₁ e₂ : String × String),
      [e₁, e₂].filter (fun e => decide (e.1 = key))
        = (if e₁.1 = key then [e₁] else []) ++ (if e₂.1 = key then [e₂] else []) := by
    intro e₁ e₂
    by_cases h1 : e₁.1 = key <;> by_cases h2 : e₂.1 = key <;> simp [h1, h2]
  simp only [added_headers, List.filter_append, hif, htwo, List.append_assoc]

/-! ## C7: the noise entry of the summary -/

/-- C7: for both values of `full`, the entries that `get_headers` writes under the key of the
parameter set (appended to whatever the map held there) contain a "Sigma value" entry if
and only if the noise differs from the sentinel `-1`; there is then exactly one such entry,
and its value is `std::to_string` of the configured noise. -/
theorem C7_headers_noise_entry {F : Type} [CFloat F] (p : parameters F) (full : Bool) :
    (∀ headers : headers_map,
      p.get_headers headers full p.pfx
        = headers p.pfx ++ p.get_headers (fun _ => []) full p.pfx) ∧
    ((∃ v, ("Sigma value", v) ∈ p.get_headers (fun _ => []) full p.pfx)
        ↔ p.noise ≠ CFloat.neg_one) ∧
    (p.get_headers (fun _ => []) full p.pfx).filter (fun e => decide (e.1 = "Sigma value"))
      = if p.noise ≠ CFloat.neg_one then [("Sigma value", CFloat.to_string p.noise)]
        else [] := by
  have hfilter : (p.get_headers (fun _ => []) full p.pfx).filter
      (fun e => decide (e.1 = "Sigma value"))
      = if p.noise ≠ CFloat.neg_one then [("Sigma value", CFloat.to_string p.noise)]
        else [] := by
    rw [get_headers_empty, filter_added_headers]
    simp
  refine ⟨?_, ?_, hfilter⟩
  · intro headers
    rw [get_headers_empty, get_headers_eq_append_at]
    simp [append_at]
  · constructor
    · rintro ⟨v, hv⟩
      have hmem : ("Sigma value", v) ∈ (p.get_headers (fun _ => []) full p.pfx).filter
          (fun e => decide (e.1 = "Sigma value")) := by
        simp [List.mem_filter, hv]
      rw [hfilter] at hmem
      by_cases hn : p.noise = CFloat.neg_one
      · simp [hn] at hmem
      · exact hn
    · intro hn
      refine ⟨CFloat.to_string p.noise, ?_⟩
      have hmem : ("Sigma value", CFloat.to_string p.noise)
          ∈ (p.get_headers (fun _ => []) full p.pfx).filter
            (fun e => decide (e.1 = "Sigma value")) := by
        rw [hfilter]
        simp [hn]
      exact (List.mem_filter.mp hmem).1

/-! ## C8: the trace path in the summary and in the built channel -/

/-- Whatever `implem` is, a channel returned by `build` was constructed with the configured
path when the type is USER or RAYLEIGH_USER, and with no path otherwise. -/
theorem path_of_build {F : Type} (mkl gsl : Bool) (p : parameters F) (c : module.Channel F)
    (hc : (p.build mkl gsl).result = Except.ok c) :
    path_of c = if p.type = "USER" ∨ p.type = "RAYLEIGH_USER" then some p.path else none := by
  simp only [parameters.build] at hc
  generalize (if p.implem = "STD" then
        some (Gaussian_noise_generator.Gaussian_noise_generator_std p.seed)
      else if p.implem = "FAST" then some (.Gaussian_noise_generator_fast p.seed)
      else if mkl = true ∧ p.implem = "MKL" then some (.Gaussian_noise_generator_MKL p.seed)
      else if gsl = true ∧ p.implem = "GSL" then some (.Gaussian_noise_generator_GSL p.seed)
      else none) = n at hc
  cases n with
  | none => simp at hc
  | some n =>
    by_cases h1 : p.type = "AWGN"
    · simp [h1] at hc
      simp [← hc, h1, path_of]
    by_cases h2 : p.type = "RAYLEIGH"
    · simp [h2] at hc
      simp [← hc, h2, path_of]
    by_cases h3 : p.type = "RAYLEIGH_USER"
    · simp [h3] at hc
      simp [← hc, h3, path_of]
    by_cases h4 : p.type = "USER"
    · simp [h4] at hc
      simp [← hc, h4, path_of]
    by_cases h5 : p.type = "NO"
    · simp [h5] at hc
      simp [← hc, h5, path_of]
    by_cases h6 : p.type = "BEC"
    · simp [h6] at hc
      simp [← hc, h6, path_of]
    simp [h1, h2, h3, h4, h5, h6] at hc

/-- C8: the summary written by `get_headers` has a "Path" entry if and only if the type is
USER or RAYLEIGH_USER, there is then exactly one and it carries the configured path; and a
channel returned by `build` was constructed with that path exactly for these two types
(for which, under a supported `implem`, `build` does return a channel). -/
theorem C8_path_entry_and_build {F : Type} [CFloat F] (mkl gsl : Bool) (p : parameters F)
    (full : Bool) :
    ((∃ v, ("Path", v) ∈ p.get_headers (fun _ => []) full p.pfx)
        ↔ (p.type = "USER" ∨ p.type = "RAYLEIGH_USER")) ∧
    ((p.get_headers (fun _ => []) full p.pfx).filter (fun e => decide (e.1 = "Path"))
      = if p.type = "USER" ∨ p.type = "RAYLEIGH_USER" then [("Path", p.path)] else []) ∧
    (∀ c, (p.build mkl gsl).result = Except.ok c →
      (path_of c = some p.path ↔ (p.type = "USER" ∨ p.type = "RAYLEIGH_USER")) ∧
      (path_of c = none ↔ ¬ (p.type = "USER" ∨ p.type = "RAYLEIGH_USER"))) ∧
    (p.implem ∈ implem_including_set mkl gsl → (p.type = "USER" ∨ p.type = "RAYLEIGH_USER") →
      ∃ c, (p.build mkl gsl).result = Except.ok c ∧ path_of c = some p.path) := by
  have hfilter : (p.get_headers (fun _ => []) full p.pfx).filter
      (fun e => decide (e.1 = "Path"))
      = if p.type = "USER" ∨ p.type = "RAYLEIGH_USER" then [("Path", p.path)] else [] := by
    rw [get_headers_empty, filter_added_headers]
    simp
  refine ⟨?_, hfilter, ?_, ?_⟩
  · constructor
    · rintro ⟨v, hv⟩
      have hmem : ("Path", v) ∈ (p.get_headers (fun _ => []) full p.pfx).filter
          (fun e => decide (e.1 = "Path")) := by
        simp [List.mem_filter, hv]
      rw [hfilter] at hmem
      by_cases ht : p.type = "USER" ∨ p.type = "RAYLEIGH_USER"
      · exact ht
      · simp [ht] at hmem
    · intro ht
      refine ⟨p.path, ?_⟩
      have hmem : ("Path", p.path) ∈ (p.get_headers (fun _ => []) full p.pfx).filter
          (fun e => decide (e.1 = "Path")) := by
        rw [hfilter]
        simp [ht]
      exact (List.mem_filter.mp hmem).1
  · intro c hc
    rw [path_of_build mkl gsl p c hc]
    by_cases ht : p.type = "USER" ∨ p.type = "RAYLEIGH_USER" <;> simp [ht]
  · intro himplem ht
    rw [build_of_supported_implem mkl gsl p himplem]
    rcases ht with h | h <;> simp [h, path_of]

/-- C8 at a USER parameter set with "STD": the summary has the entry ("Path", "trace.txt")
and the built channel was constructed with "trace.txt". -/
theorem C8_path_entry_and_build_witness :
    (∃ v, ("Path", v) ∈ (sample "USER" "STD" 1 false).get_headers (fun _ => []) true "chn") ∧
      ∃ c, ((sample "USER" "STD" 1 false).build false false).result = Except.ok c ∧
        path_of c = some "trace.txt" :=
  ⟨(C8_path_entry_and_build false false (sample "USER" "STD" 1 false) true).1.2
      (Or.inl rfl),
    (C8_path_entry_and_build false false (sample "USER" "STD" 1 false) true).2.2.2
      (by decide) (Or.inl rfl)⟩

/-! ## C10: the number of decoding iterations after `store_args` -/

/-- Lines 70, 71 and 73 write members of `params.simulation` only. -/
theorem store_simulation_decoder {F : Type} (b : Bool) (s : Launcher_EXIT_polar F) :
    ((s.store_awgn_codes_dir b).store_bin_pb_path b).store_awgn_codes_file.params.decoder
        = s.params.decoder ∧
      ((s.store_awgn_codes_dir b).store_bin_pb_path b).store_awgn_codes_file.ar = s.ar := by
  unfold Launcher_EXIT_polar.store_awgn_codes_file Launcher_EXIT_polar.store_bin_pb_path
    Launcher_EXIT_polar.store_awgn_codes_dir
  constructor <;> split_ifs <;> rfl

/-- Line 68, when it returns: the algorithm is kept; `max_iter` is what `std::stoi` reads
from the "max-iter" argument when there is one, and is kept otherwise. -/
theorem store_max_iter_ok {F : Type} (s t : Launcher_EXIT_polar F)
    (h : s.store_max_iter = Except.ok t) :
    t.params.decoder.algo = s.params.decoder.algo ∧
      (∀ v, s.ar.m_args "max-iter" = some v → std.stoi v = Except.ok t.params.decoder.max_iter)
      ∧ (s.ar.m_args "max-iter" = none → t.params.decoder.max_iter = s.params.decoder.max_iter)
      := by
  unfold Launcher_EXIT_polar.store_max_iter at h
  cases harg : s.ar.m_args "max-iter" with
  | none =>
    simp [Arguments_reader.exist_arg, harg, pure, Except.pure] at h
    subst h
    simp
  | some v =>
    simp only [Arguments_reader.exist_arg, Arguments_reader.get_arg, harg, Option.isSome_some,
      if_true, Option.getD_some] at h
    cases hv : std.stoi v with
    | error e => simp [hv, bind, Except.bind] at h
    | ok n =>
      simp [hv, bind, Except.bind, pure, Except.pure] at h
      subst h
      simp [hv]

/-- Line 74, when it returns, writes `decoder.L` only. -/
theorem store_L_ok {F : Type} (s t : Launcher_EXIT_polar F) (h : s.store_L = Except.ok t) :
    t.params.decoder.algo = s.params.decoder.algo ∧
      t.params.decoder.max_iter = s.params.decoder.max_iter := by
  unfold Launcher_EXIT_polar.store_L at h
  split_ifs at h
  · cases hv : std.stoi (s.ar.get_arg "L") with
    | error e => simp [hv, bind, Except.bind] at h
    | ok n =>
      simp [hv, bind, Except.bind, pure, Except.pure] at h
      subst h
      simp
  · simp [pure, Except.pure] at h
    subst h
    simp

/-- Line 75, when it returns, writes `code.sigma` only. -/
theorem store_code_sigma_ok {F : Type} (stof : String → Except std.exception F)
    (s t : Launcher_EXIT_polar F) (h : s.store_code_sigma stof = Except.ok t) :
    t.params.decoder = s.params.decoder ∧ t.ar = s.ar := by
  unfold Launcher_EXIT_polar.store_code_sigma at h
  split_ifs at h
  · cases hv : stof (s.ar.get_arg "code-sigma") with
    | error e => simp [hv, bind, Except.bind] at h
    | ok n =>
      simp [hv, bind, Except.bind, pure, Except.pure] at h
      subst h
      simp
  · simp [pure, Except.pure] at h
    subst h
    simp

/-- Line 77 writes `code.fb_gen_method` only. -/
theorem store_fb_gen_method_decoder {F : Type} (b : Bool) (s : Launcher_EXIT_polar F) :
    (s.store_fb_gen_method b).params.decoder = s.params.decoder := by
  unfold Launcher_EXIT_polar.store_fb_gen_method
  split_ifs <;> rfl

/-- Line 81 keeps the algorithm, sets `max_iter` to 1 when the algorithm is not "SCAN" and
keeps it when it is. -/
theorem force_max_iter_spec {F : Type} (s : Launcher_EXIT_polar F) :
    s.force_max_iter.params.decoder.algo = s.params.decoder.algo ∧
      (s.params.decoder.algo ≠ "SCAN" → s.force_max_iter.params.decoder.max_iter = 1) ∧
      (s.params.decoder.algo = "SCAN" →
        s.force_max_iter.params.decoder.max_iter = s.params.decoder.max_iter) := by
  unfold Launcher_EXIT_polar.force_max_iter
  by_cases h : s.params.decoder.algo = "SCAN" <;> simp [h]

/-- Line 68 returns when the "max-iter" argument, if given, is read by `std::stoi`; it keeps
the argument reader. -/
theorem store_max_iter_returns {F : Type} (s : Launcher_EXIT_polar F)
    (h : ∀ v, s.ar.m_args "max-iter" = some v → ∃ n, std.stoi v = Except.ok n) :
    ∃ t, s.store_max_iter = Except.ok t ∧ t.ar = s.ar := by
  unfold Launcher_EXIT_polar.store_max_iter
  cases harg : s.ar.m_args "max-iter" with
  | none => exact ⟨s, by simp [Arguments_reader.exist_arg, harg, pure, Except.pure], rfl⟩
  | some v =>
    obtain ⟨n, hn⟩ := h v harg
    exact ⟨{ s with params.decoder.max_iter := n },
      by simp [Arguments_reader.exist_arg, Arguments_reader.get_arg, harg, hn, bind,
        Except.bind, pure, Except.pure], rfl⟩

/-- Line 74 returns when the "L" argument, if given, is read by `std::stoi`; it keeps the
argument reader. -/
theorem store_L_returns {F : Type} (s : Launcher_EXIT_polar F)
    (h : ∀ v, s.ar.m_args "L" = some v → ∃ n, std.stoi v = Except.ok n) :
    ∃ t, s.store_L = Except.ok t ∧ t.ar = s.ar := by
  unfold Launcher_EXIT_polar.store_L
  cases harg : s.ar.m_args "L" with
  | none => exact ⟨s, by simp [Arguments_reader.exist_arg, harg, pure, Except.pure], rfl⟩
  | some v =>
    obtain ⟨n, hn⟩ := h v harg
    exact ⟨{ s with params.decoder.L := n },
      by simp [Arguments_reader.exist_arg, Arguments_reader.get_arg, harg, hn, bind,
        Except.bind, pure, Except.pure], rfl⟩

/-- Line 75 returns when the "code-sigma" argument, if given, is read by `std::stof`. -/
theorem store_code_sigma_returns {F : Type} (stof : String → Except std.exception F)
    (s : Launcher_EXIT_polar F)
    (h : ∀ v, s.ar.m_args "code-sigma" = some v → ∃ x, stof v = Except.ok x) :
    ∃ t, s.store_code_sigma stof = Except.ok t := by
  unfold Launcher_EXIT_polar.store_code_sigma
  cases harg : s.ar.m_args "code-sigma" with
  | none => exact ⟨s, by simp [Arguments_reader.exist_arg, harg, pure, Except.pure]⟩
  | some v =>
    obtain ⟨x, hx⟩ := h v harg
    exact ⟨{ s with params.code.sigma := x },
      by simp [Arguments_reader.exist_arg, Arguments_reader.get_arg, harg, hx, bind,
        Except.bind, pure, Except.pure]⟩

/-- The call of `store_args` returns whenever the method of the base class returns and the numeric
arguments that were given ("max-iter", "L", "code-sigma") are read by `std::stoi` and
`std::stof`. -/
theorem store_args_returns {F : Type} (ENABLE_POLAR_BOUNDS : Bool)
    (Launcher_EXIT_store_args :
      Launcher_EXIT_polar F → Except std.exception (Launcher_EXIT_polar F))
    (stof : String → Except std.exception F) (s s₁ : Launcher_EXIT_polar F)
    (hb : Launcher_EXIT_store_args s = Except.ok s₁)
    (hmax : ∀ v, s₁.ar.m_args "max-iter" = some v → ∃ n, std.stoi v = Except.ok n)
    (hL : ∀ v, s₁.ar.m_args "L" = some v → ∃ n, std.stoi v = Except.ok n)
    (hsigma : ∀ v, s₁.ar.m_args "code-sigma" = some v → ∃ x, stof v = Except.ok x) :
    ∃ s', Launcher_EXIT_polar.store_args ENABLE_POLAR_BOUNDS Launcher_EXIT_store_args stof s
      = Except.ok s' := by
  obtain ⟨s₂, h2, har2⟩ := store_max_iter_returns s₁ hmax
  obtain ⟨_, har4⟩ := store_simulation_decoder ENABLE_POLAR_BOUNDS s₂
  obtain ⟨s₅, h5, har5⟩ := store_L_returns
    ((s₂.store_awgn_codes_dir ENABLE_POLAR_BOUNDS).store_bin_pb_path
      ENABLE_POLAR_BOUNDS).store_awgn_codes_file (by rw [har4, har2]; exact hL)
  obtain ⟨s₆, h6⟩ := store_code_sigma_returns stof s₅
    (by rw [har5, har4, har2]; exact hsigma)
  exact ⟨(s₆.store_fb_gen_method ENABLE_POLAR_BOUNDS).force_max_iter, by
    simp [Launcher_EXIT_polar.store_args, hb, h2, h5, h6, bind, Except.bind, pure,
      Except.pure]⟩

/-- C10: let `store_args` return, the call of the base class leaving the argument reader and
`decoder.max_iter` as they were. If the decoder algorithm is not "SCAN", `decoder.max_iter`
is 1, whatever "max-iter" was given; if it is "SCAN" and "max-iter" was given,
`decoder.max_iter` is the integer `std::stoi` reads from that argument; if it is "SCAN" and
"max-iter" was not given, `decoder.max_iter` is what it was before the call. -/
theorem C10_store_args_max_iter {F : Type} (ENABLE_POLAR_BOUNDS : Bool)
    (Launcher_EXIT_store_args :
      Launcher_EXIT_polar F → Except std.exception (Launcher_EXIT_polar F))
    (stof : String → Except std.exception F) (s s' : Launcher_EXIT_polar F)
    (hbase : ∀ s₁, Launcher_EXIT_store_args s = Except.ok s₁ →
      s₁.ar.m_args "max-iter" = s.ar.m_args "max-iter" ∧
        s₁.params.decoder.max_iter = s.params.decoder.max_iter)
    (hret : Launcher_EXIT_polar.store_args ENABLE_POLAR_BOUNDS Launcher_EXIT_store_args stof s
      = Except.ok s') :
    (s'.params.decoder.algo ≠ "SCAN" → s'.params.decoder.max_iter = 1) ∧
    (s'.params.decoder.algo = "SCAN" → ∀ v, s.ar.m_args "max-iter" = some v →
      std.stoi v = Except.ok s'.params.decoder.max_iter) ∧
    (s'.params.decoder.algo = "SCAN" → s.ar.m_args "max-iter" = none →
      s'.params.decoder.max_iter = s.params.decoder.max_iter) := by
  unfold Launcher_EXIT_polar.store_args at hret
  cases hb : Launcher_EXIT_store_args s with
  | error e => simp [hb, bind, Except.bind] at hret
  | ok s₁ =>
    obtain ⟨har, hmi⟩ := hbase s₁ hb
    cases h2 : s₁.store_max_iter with
    | error e => simp [hb, h2, bind, Except.bind] at hret
    | ok s₂ =>
      cases h5 : ((s₂.store_awgn_codes_dir ENABLE_POLAR_BOUNDS).store_bin_pb_path
          ENABLE_POLAR_BOUNDS).store_awgn_codes_file.store_L with
      | error e => simp [hb, h2, h5, bind, Except.bind] at hret
      | ok s₅ =>
        cases h6 : s₅.store_code_sigma stof with
        | error e => simp [hb, h2, h5, h6, bind, Except.bind] at hret
        | ok s₆ =>
          simp only [hb, h2, h5, h6, bind, Except.bind, pure, Except.pure,
            Except.ok.injEq] at hret
          obtain ⟨ha2, hv2, hn2⟩ := store_max_iter_ok s₁ s₂ h2
          obtain ⟨hd3, _⟩ := store_simulation_decoder ENABLE_POLAR_BOUNDS s₂
          obtain ⟨ha5, hm5⟩ := store_L_ok _ s₅ h5
          obtain ⟨hd6, _⟩ := store_code_sigma_ok stof s₅ s₆ h6
          have hd7 := store_fb_gen_method_decoder ENABLE_POLAR_BOUNDS s₆
          obtain ⟨ha8, hf8, hk8⟩ :=
            force_max_iter_spec (s₆.store_fb_gen_method ENABLE_POLAR_BOUNDS)
          rw [hret] at ha8 hf8 hk8
          have halgo : (s₆.store_fb_gen_method ENABLE_POLAR_BOUNDS).params.decoder.algo
              = s₂.params.decoder.algo := by
            rw [hd7, hd6, ha5, hd3]
          have hmax : (s₆.store_fb_gen_method ENABLE_POLAR_BOUNDS).params.decoder.max_iter
              = s₂.params.decoder.max_iter := by
            rw [hd7, hd6, hm5, hd3]
          refine ⟨?_, ?_, ?_⟩
          · intro hne
            exact hf8 (by rw [← ha8]; exact hne)
          · intro heq v hv
            rw [hk8 (by rw [← ha8]; exact heq), hmax]
            exact hv2 v (by rw [har]; exact hv)
          · intro heq hnone
            rw [hk8 (by rw [← ha8]; exact heq), hmax, hn2 (by rw [har]; exact hnone), hmi]

/-- C10 on the command line `--dec-algo SC --max-iter 5`: `store_args` returns, the algorithm
is "SC" and `max_iter` is 1; on `--max-iter 5` alone the algorithm is "SCAN" and `max_iter`
is 5. -/
theorem C10_store_args_max_iter_witness :
    (∃ s', Launcher_EXIT_polar.store_args false sample_base_store_args std.stoi
        (sample_launcher (some "SC") (some "5")) = Except.ok s' ∧
      s'.params.decoder.algo = "SC" ∧ s'.params.decoder.max_iter = 1) ∧
    (∃ s', Launcher_EXIT_polar.store_args false sample_base_store_args std.stoi
        (sample_launcher none (some "5")) = Except.ok s' ∧
      s'.params.decoder.algo = "SCAN" ∧ std.stoi "5" = Except.ok s'.params.decoder.max_iter) :=
  ⟨⟨_, rfl, rfl,
      (C10_store_args_max_iter false sample_base_store_args std.stoi
        (sample_launcher (some "SC") (some "5")) _
        (by intro s₁ h; cases h; exact ⟨rfl, rfl⟩) rfl).1 (by decide)⟩,
    ⟨_, rfl, rfl,
      (C10_store_args_max_iter false sample_base_store_args std.stoi
        (sample_launcher none (some "5")) _
        (by intro s₁ h; cases h; exact ⟨rfl, rfl⟩) rfl).2.1 rfl "5" rfl⟩⟩

/-! ## C11: the seed in the summary and in the built channel -/

/-- The generator allocated by `build` carries the configured seed. -/
theorem seed_of_generator_generator_of {F : Type} (p : parameters F) :
    seed_of_generator (generator_of p) = p.seed := by
  unfold generator_of
  split_ifs <;> rfl

/-- C11: for the six supported types and a supported `implem`, the summary written by
`get_headers` with `full = true` has a "Seed" entry (exactly one, the decimal rendering of
the seed) if and only if the type is AWGN, RAYLEIGH, RAYLEIGH_USER or BEC. These are the
types whose built channel is constructed with the seed: for AWGN, RAYLEIGH and RAYLEIGH_USER
the seeded generator is handed to the channel and not deleted, for BEC the seed is an
argument of the channel. For NO and USER the channel takes no seed and the generator is
allocated and deleted. With `full = false` there is no "Seed" entry, whatever the parameter
set is. -/
theorem C11_seed_entry_and_build {F : Type} [CFloat F] (mkl gsl : Bool) (p : parameters F)
    (himplem : p.implem ∈ implem_including_set mkl gsl)
    (htype : p.type ∈ type_including_set) :
    ((∃ v, ("Seed", v) ∈ p.get_headers (fun _ => []) true p.pfx)
        ↔ p.type ∈ ["AWGN", "RAYLEIGH", "RAYLEIGH_USER", "BEC"]) ∧
    ((p.get_headers (fun _ => []) true p.pfx).filter (fun e => decide (e.1 = "Seed"))
      = if p.type ∈ ["AWGN", "RAYLEIGH", "RAYLEIGH_USER", "BEC"] then
          [("Seed", toString p.seed)] else []) ∧
    (∃ c, (p.build mkl gsl).result = Except.ok c ∧
      (seed_of c = some p.seed ↔ p.type ∈ ["AWGN", "RAYLEIGH", "RAYLEIGH_USER", "BEC"]) ∧
      (seed_of c = none ↔ p.type ∈ ["NO", "USER"])) ∧
    (p.type ∈ ["AWGN", "RAYLEIGH", "RAYLEIGH_USER"] →
      seed_of_generator (generator_of p) = p.seed ∧
      (p.build mkl gsl).events = [heap_event.new_generator (generator_of p)]) ∧
    (p.type ∈ ["NO", "USER", "BEC"] →
      (p.build mkl gsl).events
        = [heap_event.new_generator (generator_of p),
           heap_event.delete_generator (generator_of p)]) ∧
    (∀ q : parameters F, ∀ v, ("Seed", v) ∉ q.get_headers (fun _ => []) false q.pfx) := by
  have hfilter : (p.get_headers (fun _ => []) true p.pfx).filter
      (fun e => decide (e.1 = "Seed"))
      = if p.type ∈ ["AWGN", "RAYLEIGH", "RAYLEIGH_USER", "BEC"] then
          [("Seed", toString p.seed)] else [] := by
    rw [get_headers_empty, filter_added_headers]
    simp only [type_including_set, List.mem_cons, List.mem_singleton, List.not_mem_nil,
      or_false] at htype
    rcases htype with h | h | h | h | h | h <;> simp [h]
  have hseed := seed_of_generator_generator_of p
  simp only [type_including_set, List.mem_cons, List.mem_singleton, List.not_mem_nil,
    or_false] at htype
  refine ⟨?_, hfilter, ?_, ?_, ?_, ?_⟩
  · constructor
    · rintro ⟨v, hv⟩
      have hmem : ("Seed", v) ∈ (p.get_headers (fun _ => []) true p.pfx).filter
          (fun e => decide (e.1 = "Seed")) := by
        simp [List.mem_filter, hv]
      rw [hfilter] at hmem
      by_cases ht : p.type ∈ ["AWGN", "RAYLEIGH", "RAYLEIGH_USER", "BEC"]
      · exact ht
      · simp [ht] at hmem
    · intro ht
      refine ⟨toString p.seed, ?_⟩
      have hmem : ("Seed", toString p.seed)
          ∈ (p.get_headers (fun _ => []) true p.pfx).filter
            (fun e => decide (e.1 = "Seed")) := by
        rw [hfilter]
        simp [ht]
      exact (List.mem_filter.mp hmem).1
  · rw [build_of_supported_implem mkl gsl p himplem]
    rcases htype with h | h | h | h | h | h <;> simp [h, seed_of, hseed]
  · intro ht
    rw [build_of_supported_implem mkl gsl p himplem]
    simp only [List.mem_cons, List.mem_singleton, List.not_mem_nil, or_false] at ht
    rcases ht with h | h | h <;> simp [h, hseed]
  · intro ht
    rw [build_of_supported_implem mkl gsl p himplem]
    simp only [List.mem_cons, List.mem_singleton, List.not_mem_nil, or_false] at ht
    rcases ht with h | h | h <;> simp [h]
  · intro q v hv
    have hmem : ("Seed", v) ∈ (q.get_headers (fun _ => []) false q.pfx).filter
        (fun e => decide (e.1 = "Seed")) := by
      simp [List.mem_filter, hv]
    rw [get_headers_empty, filter_added_headers] at hmem
    simp at hmem

/-- C11 at a BEC parameter set with "STD" and seed 7: the full summary has the entry
("Seed", "7") and the built channel has the seed 7. -/
theorem C11_seed_entry_and_build_witness :
    (sample "BEC" "STD" 1 false).implem ∈ implem_including_set false false ∧
      (sample "BEC" "STD" 1 false).type ∈ type_including_set ∧
      (sample "BEC" "STD" 1 false).get_headers (fun _ => []) true "chn"
        = [("Type", "BEC"), ("Implementation", "STD"), ("Frame size (N)", "8"),
           ("Inter frame level", "2"), ("Sigma value", "1.000000"), ("Seed", "7"),
           ("Complex", "off"), ("Add users", "off")] ∧
      (∃ v, ("Seed", v) ∈ (sample "BEC" "STD" 1 false).get_headers (fun _ => []) true "chn") ∧
      ∃ c, ((sample "BEC" "STD" 1 false).build false false).result = Except.ok c ∧
        (seed_of c = some 7 ↔
          (sample "BEC" "STD" 1 false).type ∈ ["AWGN", "RAYLEIGH", "RAYLEIGH_USER", "BEC"]) :=
  ⟨by decide, by decide, by decide,
    (C11_seed_entry_and_build false false (sample "BEC" "STD" 1 false) (by decide)
      (by decide)).1.2 (by decide),
    (C11_seed_entry_and_build false false (sample "BEC" "STD" 1 false) (by decide)
      (by decide)).2.2.1.imp (fun _ h => ⟨h.1, h.2.1⟩)⟩

/-! ## C12: the interleaver factory -/

/-- C12: `Factory_interleaver::build` always returns, never throws. The returned pointer is
non-null if and only if the type is one of LTE, CCSDS, RANDOM, RAND_COL, ROW_COL, GOLDEN,
USER, NO; for every other type string it is the null pointer. For LTE, CCSDS, ROW_COL, USER
and NO the result is the same for every seed. -/
theorem C12_interleaver_build (params : Factory_interleaver.parameters) (size seed : Int) :
    (∃ r, Factory_interleaver.build params size seed = Except.ok r) ∧
    ((∃ i, Factory_interleaver.build params size seed = Except.ok (some i)) ↔
      params.interleaver.type
        ∈ ["LTE", "CCSDS", "RANDOM", "RAND_COL", "ROW_COL", "GOLDEN", "USER", "NO"]) ∧
    (params.interleaver.type
        ∉ ["LTE", "CCSDS", "RANDOM", "RAND_COL", "ROW_COL", "GOLDEN", "USER", "NO"] →
      Factory_interleaver.build params size seed = Except.ok none) ∧
    (params.interleaver.type ∈ ["LTE", "CCSDS", "ROW_COL", "USER", "NO"] →
      ∀ seed', Factory_interleaver.build params size seed'
        = Factory_interleaver.build params size seed) := by
  simp only [Factory_interleaver.build, List.mem_cons, List.mem_singleton, List.not_mem_nil,
    or_false]
  by_cases h1 : params.interleaver.type = "LTE"
  · simp [h1]
  by_cases h2 : params.interleaver.type = "CCSDS"
  · simp [h2]
  by_cases h3 : params.interleaver.type = "RANDOM"
  · simp [h3]
  by_cases h4 : params.interleaver.type = "RAND_COL"
  · simp [h4]
  by_cases h5 : params.interleaver.type = "ROW_COL"
  · simp [h5]
  by_cases h6 : params.interleaver.type = "GOLDEN"
  · simp [h6]
  by_cases h7 : params.interleaver.type = "USER"
  · simp [h7]
  by_cases h8 : params.interleaver.type = "NO"
  · simp [h8]
  simp [h1, h2, h3, h4, h5, h6, h7, h8]

/-- C12 at the unknown type "RND" (a null pointer, no error), at the type "ROW_COL" (the
same interleaver for the seeds 5 and 0) and at the type "GOLDEN" (non-null). -/
theorem C12_interleaver_build_witness :
    Factory_interleaver.build (sample_interleaver "RND") 16 5 = Except.ok none ∧
      Factory_interleaver.build (sample_interleaver "ROW_COL") 16 5
        = Factory_interleaver.build (sample_interleaver "ROW_COL") 16 0 ∧
      Factory_interleaver.build (sample_interleaver "ROW_COL") 16 0
        = Except.ok (some (Interleaver.Interleaver_row_column 16 4 2)) ∧
      ∃ i, Factory_interleaver.build (sample_interleaver "GOLDEN") 16 5
        = Except.ok (some i) :=
  ⟨(C12_interleaver_build (sample_interleaver "RND") 16 5).2.2.1 (by decide),
    (C12_interleaver_build (sample_interleaver "ROW_COL") 16 0).2.2.2 (by decide) 5,
    rfl,
    (C12_interleaver_build (sample_interleaver "GOLDEN") 16 5).2.1.2 (by decide)⟩

end Spec
